import Mathlib

/-!
Verification of the Go binding layer of the zerobus ingestion SDK.

The Go sources (`errors.go`, `ack.go`, `sdk/zerobus.go`, `sdk/ffi.go`) are
embedded shallowly: Go methods become Lean functions, the mutable `ptr`
fields become `Option Nat` state threaded explicitly, and every invocation
of a native FFI function is recorded in an explicit trace (`List FFICall`)
so that "no FFI call is made" is a provable statement.  The native core
(the Rust crate behind the `extern` declarations) is an external
collaborator; where a claim depends on its behaviour we either quantify
over an arbitrary environment `FFIEnv` or model the relevant contract from
the specification (definitions marked `Modelled from the spec:`).
-/

namespace Zerobus

/-- Embedding of `ZerobusError` from `errors.go`: an SDK error value with a
message and a retryability flag. -/
structure ZerobusError where
  Message : String
  IsRetryable : Bool
  deriving DecidableEq, Repr

/-- Embedding of `(*ZerobusError).Error()` from `errors.go` lines 11-16. -/
def ZerobusError.Error (e : ZerobusError) : String :=
  if e.IsRetryable then
    "ZerobusError (retryable): " ++ e.Message
  else
    "ZerobusError: " ++ e.Message

/-- Embedding of `(*ZerobusError).Retryable()` from `errors.go` lines 19-21. -/
def ZerobusError.Retryable (e : ZerobusError) : Bool :=
  e.IsRetryable

/-- A Go `error` value: `none` is Go's `nil`; every non-nil error produced by
this SDK is a `*ZerobusError`. -/
abbrev GoError := Option ZerobusError

/-- Embedding of the C `CResult` struct declared in `sdk/ffi.go`: success
flag, optional error message (`none` models a NULL `char*`), and
retryability flag. -/
structure CResult where
  success : Bool
  error_message : Option String
  is_retryable : Bool
  deriving DecidableEq, Repr

/-- Embedding of `ffiResult` from `sdk/ffi.go` lines 128-145: convert a C
result to a Go error, using "unknown error" when the C side supplies no
message and preserving the `is_retryable` flag. -/
def ffiResult (cres : CResult) : GoError :=
  if cres.success then
    none
  else
    match cres.error_message with
    | some m => some { Message := m, IsRetryable := cres.is_retryable }
    | none => some { Message := "unknown error", IsRetryable := cres.is_retryable }

/-- One invocation of a native FFI function, as performed by the Go layer in
`sdk/ffi.go`.  The `Nat` arguments are the opaque native pointers. -/
inductive FFICall where
  | callIngestProto (streamPtr : Nat) (data : List Nat)
  | callIngestJSON (streamPtr : Nat) (json : String)
  | callFlush (streamPtr : Nat)
  | callClose (streamPtr : Nat)
  | callStreamFree (streamPtr : Nat)
  | callAwaitAck (ackID : Nat)
  | callTryGetAck (ackID : Nat)
  | callSdkFree (sdkPtr : Nat)
  | callCreateStream (sdkPtr : Nat)
  deriving DecidableEq, Repr

/-- Behaviour of the native side, seen from the Go layer: one field per C
entry point used by the embedded functions, returning exactly the values
the C function hands back (return value plus out-parameters).  Theorems
quantify over this environment. -/
structure FFIEnv where
  ingestProto : Nat → List Nat → Nat × CResult
  ingestJSON : Nat → String → Nat × CResult
  flush : Nat → Bool × CResult
  close : Nat → Bool × CResult
  awaitAck : Nat → Int × CResult
  tryGetAck : Nat → Int × Bool × CResult
  createStream : Nat → Option Nat × CResult

/-- Embedding of `streamIngestProtoRecord` from `sdk/ffi.go` lines 358-379:
empty data is rejected locally before any FFI call; otherwise the native
ingest is invoked, ack id 0 signalling failure. -/
def streamIngestProtoRecord (env : FFIEnv) (streamPtr : Nat) (data : List Nat) :
    Nat × GoError × List FFICall :=
  if data.length = 0 then
    (0, some { Message := "empty data", IsRetryable := false }, [])
  else
    let res := env.ingestProto streamPtr data
    let ackID := res.1
    let cres := res.2
    if ackID = 0 then
      (0, ffiResult cres, [.callIngestProto streamPtr data])
    else
      (ackID, none, [.callIngestProto streamPtr data])

/-- Embedding of `streamIngestJSONRecord` from `sdk/ffi.go` lines 383-399:
the JSON string is passed to the native ingest unconditionally, ack id 0
signalling failure. -/
def streamIngestJSONRecord (env : FFIEnv) (streamPtr : Nat) (jsonData : String) :
    Nat × GoError × List FFICall :=
  let res := env.ingestJSON streamPtr jsonData
  let ackID := res.1
  let cres := res.2
  if ackID = 0 then
    (0, ffiResult cres, [.callIngestJSON streamPtr jsonData])
  else
    (ackID, none, [.callIngestJSON streamPtr jsonData])

/-- Embedding of `streamAwaitAck` from `sdk/ffi.go` lines 402-414: a
negative native offset is mapped to `(-1, ffiResult cres)`. -/
def streamAwaitAck (env : FFIEnv) (ackID : Nat) : Int × GoError × List FFICall :=
  let res := env.awaitAck ackID
  let offset := res.1
  let cres := res.2
  if offset < 0 then
    (-1, ffiResult cres, [.callAwaitAck ackID])
  else
    (offset, none, [.callAwaitAck ackID])

/-- Embedding of `streamTryGetAck` from `sdk/ffi.go` lines 417-439: native
offset -1 means still pending, -2 means error, anything else is the
resolved offset.  The C `is_ready` out-parameter is ignored by the Go code. -/
def streamTryGetAck (env : FFIEnv) (ackID : Nat) :
    Int × GoError × Bool × List FFICall :=
  let res := env.tryGetAck ackID
  let offset := res.1
  let cres := res.2.2
  if offset = -1 then
    (0, none, false, [.callTryGetAck ackID])
  else if offset = -2 then
    (0, ffiResult cres, true, [.callTryGetAck ackID])
  else
    (offset, none, true, [.callTryGetAck ackID])

/-- Embedding of `streamFlush` from `sdk/ffi.go` lines 442-451. -/
def streamFlush (env : FFIEnv) (streamPtr : Nat) : GoError × List FFICall :=
  let res := env.flush streamPtr
  let success := res.1
  let cres := res.2
  if success then
    (none, [.callFlush streamPtr])
  else
    (ffiResult cres, [.callFlush streamPtr])

/-- Embedding of `streamClose` from `sdk/ffi.go` lines 454-463. -/
def streamClose (env : FFIEnv) (streamPtr : Nat) : GoError × List FFICall :=
  let res := env.close streamPtr
  let success := res.1
  let cres := res.2
  if success then
    (none, [.callClose streamPtr])
  else
    (ffiResult cres, [.callClose streamPtr])

/-- Embedding of `streamFree` from `sdk/ffi.go` lines 342-354: frees the
native stream when the pointer is non-nil (the handle-registry bookkeeping
is Go-local and performs no FFI call). -/
def streamFree (ptr : Option Nat) : List FFICall :=
  match ptr with
  | some p => [.callStreamFree p]
  | none => []

/-- Embedding of `sdkFree` from `sdk/ffi.go` lines 189-193. -/
def sdkFree (ptr : Option Nat) : List FFICall :=
  match ptr with
  | some p => [.callSdkFree p]
  | none => []

/-- Embedding of `RecordAck` from `ack.go`: the ack id plus the state of the
`sync.Once` cell (`onceDone`) and the cached `offset`/`err` fields, which
are Go zero values until the once body runs. -/
structure RecordAck where
  ackID : Nat
  onceDone : Bool
  offset : Int
  err : GoError
  deriving DecidableEq, Repr

/-- Embedding of `(*RecordAck).Await()` from `ack.go` lines 24-29: the
`sync.Once` body runs `streamAwaitAck` on the first call and caches its
result; later calls return the cached fields without any FFI call. -/
def RecordAck.Await (env : FFIEnv) (a : RecordAck) :
    Int × GoError × RecordAck × List FFICall :=
  if a.onceDone then
    (a.offset, a.err, a, [])
  else
    let res := streamAwaitAck env a.ackID
    let a2 : RecordAck :=
      { a with onceDone := true, offset := res.1, err := res.2.1 }
    (a2.offset, a2.err, a2, res.2.2)

/-- Embedding of `(*RecordAck).TryGet()` from `ack.go` lines 35-37. -/
def RecordAck.TryGet (env : FFIEnv) (a : RecordAck) :
    Int × GoError × Bool × List FFICall :=
  streamTryGetAck env a.ackID

/-- The dynamic type of the `interface\x7b\x7d` payload handed to
`IngestRecord`: a `[]byte`, a `string`, or any other dynamic type. -/
inductive Payload where
  | bytes (data : List Nat)
  | str (s : String)
  | other
  deriving DecidableEq, Repr

/-- Embedding of `ZerobusStream` from `sdk/zerobus.go`: the native stream
pointer, `none` once the stream has been closed. -/
structure ZerobusStream where
  ptr : Option Nat
  deriving DecidableEq, Repr

/-- Embedding of `(*ZerobusStream).IngestRecord` from `sdk/zerobus.go`
lines 138-165: a closed stream is rejected locally; otherwise the payload
type switch dispatches to the proto or JSON ingest, any other dynamic type
being rejected locally; on success a fresh `RecordAck` carrying the ack id
is returned. -/
def ZerobusStream.IngestRecord (env : FFIEnv) (st : ZerobusStream)
    (payload : Payload) :
    Option RecordAck × GoError × ZerobusStream × List FFICall :=
  match st.ptr with
  | none =>
      (none, some { Message := "Stream has been closed", IsRetryable := false },
       st, [])
  | some p =>
      match payload with
      | .bytes v =>
          let res := streamIngestProtoRecord env p v
          match res.2.1 with
          | some e => (none, some e, st, res.2.2)
          | none =>
              (some { ackID := res.1, onceDone := false, offset := 0, err := none },
               none, st, res.2.2)
      | .str v =>
          let res := streamIngestJSONRecord env p v
          match res.2.1 with
          | some e => (none, some e, st, res.2.2)
          | none =>
              (some { ackID := res.1, onceDone := false, offset := 0, err := none },
               none, st, res.2.2)
      | .other =>
          (none,
           some { Message := "Invalid payload type: must be []byte or string",
                  IsRetryable := false },
           st, [])

/-- Embedding of `(*ZerobusStream).Flush` from `sdk/zerobus.go`
lines 179-185. -/
def ZerobusStream.Flush (env : FFIEnv) (st : ZerobusStream) :
    GoError × List FFICall :=
  match st.ptr with
  | none =>
      (some { Message := "Stream has been closed", IsRetryable := false }, [])
  | some p => streamFlush env p

/-- Embedding of `(*ZerobusStream).Close` from `sdk/zerobus.go`
lines 201-211: an already-closed stream returns nil immediately; otherwise
the native close runs, the native stream is freed, the pointer is nilled,
and the close error (if any) is returned. -/
def ZerobusStream.Close (env : FFIEnv) (st : ZerobusStream) :
    GoError × ZerobusStream × List FFICall :=
  match st.ptr with
  | none => (none, st, [])
  | some p =>
      let res := streamClose env p
      (res.1, { ptr := none }, res.2 ++ streamFree (some p))

/-- Embedding of `TableProperties` from the options file of the `sdk`
package. -/
structure TableProperties where
  TableName : String
  DescriptorProto : List Nat
  deriving DecidableEq, Repr

/-- Embedding of the Go `RecordType` (an `int32`). -/
abbrev RecordType := Int

/-- Embedding of `StreamConfigurationOptions` from the options file of the
`sdk` package. -/
structure StreamConfigurationOptions where
  MaxInflightRecords : Nat
  Recovery : Bool
  RecoveryTimeoutMs : Nat
  RecoveryBackoffMs : Nat
  RecoveryRetries : Nat
  ServerLackOfAckTimeoutMs : Nat
  FlushTimeoutMs : Nat
  RecordType : RecordType
  deriving DecidableEq, Repr

/-- Embedding of `sdkCreateStream` from `sdk/ffi.go` lines 196-240: the
native create-stream is invoked, a NULL stream pointer signalling failure. -/
def sdkCreateStream (env : FFIEnv) (sdkPtr : Nat) (tableName : String)
    (descriptorProto : List Nat) (clientID clientSecret : String)
    (options : Option StreamConfigurationOptions) :
    Option Nat × GoError × List FFICall :=
  let res := env.createStream sdkPtr
  match res.1 with
  | none => (none, ffiResult res.2, [.callCreateStream sdkPtr])
  | some q => (some q, none, [.callCreateStream sdkPtr])

/-- Embedding of `ZerobusSdk` from `sdk/zerobus.go`: the native SDK pointer,
`none` once `Free` has run. -/
structure ZerobusSdk where
  ptr : Option Nat
  deriving DecidableEq, Repr

/-- Embedding of `(*ZerobusSdk).Free` from `sdk/zerobus.go` lines 48-53: the
native SDK is freed and the pointer nilled only when the pointer is still
non-nil. -/
def ZerobusSdk.Free (s : ZerobusSdk) : ZerobusSdk × List FFICall :=
  match s.ptr with
  | none => (s, [])
  | some p => ({ ptr := none }, sdkFree (some p))

/-- Embedding of `(*ZerobusSdk).CreateStream` from `sdk/zerobus.go`
lines 81-111: a freed SDK is rejected locally; otherwise the FFI
create-stream runs and on success the returned pointer is wrapped in a
`ZerobusStream`. -/
def ZerobusSdk.CreateStream (env : FFIEnv) (s : ZerobusSdk)
    (tableProps : TableProperties) (clientID clientSecret : String)
    (options : Option StreamConfigurationOptions) :
    Option ZerobusStream × GoError × List FFICall :=
  match s.ptr with
  | none =>
      (none, some { Message := "SDK has been freed", IsRetryable := false }, [])
  | some p =>
      let res := sdkCreateStream env p tableProps.TableName
        tableProps.DescriptorProto clientID clientSecret options
      match res.2.1 with
      | some e => (none, some e, res.2.2)
      | none => (some { ptr := res.1 }, none, res.2.2)

/-- Modelled from the spec: the per-stream record encoding mode
(`recordEncoding: Binary|Json` in §6), fixed at stream creation. -/
inductive RecordEncoding where
  | binary
  | json
  deriving DecidableEq, Repr

/-- Modelled from the spec: one message handed to the external channel (the
duplex network abstraction of §6) by the native core. -/
inductive ChannelSend where
  | sendProto (data : List Nat)
  | sendJSON (json : String)
  deriving DecidableEq, Repr

/-- Modelled from the spec: `zerobus_stream_ingest_proto_record`, the native
core's ingest path for binary records (the Rust implementation under
`sdk/zerobus-ffi` is not in `src/`).  Per §4.2 the encoding mode is fixed
per stream and a record of the wrong kind is rejected at the boundary rather
than silently coerced; per §7 wrong-kind and empty-payload records are local
validation errors, never retryable, surfaced synchronously, with nothing
sent to the channel.  `send` abstracts the post-validation path that hands
the record to the channel; ack id 0 with a failed `CResult` is the FFI
encoding of failure. -/
def coreIngestProto (mode : RecordEncoding)
    (send : List Nat → Nat × CResult × List ChannelSend) (data : List Nat) :
    Nat × CResult × List ChannelSend :=
  if mode = .json then
    (0, { success := false, error_message := some "wrong encoding kind",
          is_retryable := false }, [])
  else if data = [] then
    (0, { success := false, error_message := some "empty payload",
          is_retryable := false }, [])
  else
    send data

/-- Modelled from the spec: `zerobus_stream_ingest_json_record`, the native
core's ingest path for JSON records (the Rust implementation under
`sdk/zerobus-ffi` is not in `src/`).  Per §4.2 a record of the wrong kind
for the stream's fixed encoding mode is rejected at the boundary; per §7 an
empty payload is a local validation error, never retryable, surfaced
synchronously, with nothing sent to the channel. -/
def coreIngestJSON (mode : RecordEncoding)
    (send : String → Nat × CResult × List ChannelSend) (json : String) :
    Nat × CResult × List ChannelSend :=
  if mode = .binary then
    (0, { success := false, error_message := some "wrong encoding kind",
          is_retryable := false }, [])
  else if json = "" then
    (0, { success := false, error_message := some "empty payload",
          is_retryable := false }, [])
  else
    send json

/-- Modelled from the spec: an FFI environment whose ingest entry points are
driven by the spec-modelled native core of a stream whose encoding mode was
fixed at creation; every other entry point is inherited from `base`. -/
def coreEnv (mode : RecordEncoding)
    (sendP : List Nat → Nat × CResult × List ChannelSend)
    (sendJ : String → Nat × CResult × List ChannelSend)
    (base : FFIEnv) : FFIEnv :=
  { base with
    ingestProto := fun _ data =>
      ((coreIngestProto mode sendP data).1, (coreIngestProto mode sendP data).2.1),
    ingestJSON := fun _ j =>
      ((coreIngestJSON mode sendJ j).1, (coreIngestJSON mode sendJ j).2.1) }

/-- A concrete FFI environment used to instantiate theorems with hypotheses
on concrete inputs: awaiting resolves to offset 7, the native close reports
a failure, and `tryGetAck` answers pending for ack id 1, failed for ack
id 2, and resolved at offset 7 otherwise. -/
def testEnv : FFIEnv where
  ingestProto := fun _ _ => (1, { success := true, error_message := none, is_retryable := false })
  ingestJSON := fun _ _ => (2, { success := true, error_message := none, is_retryable := false })
  flush := fun _ => (true, { success := true, error_message := none, is_retryable := false })
  close := fun _ => (false, { success := false, error_message := some "close failed", is_retryable := false })
  awaitAck := fun _ => (7, { success := true, error_message := none, is_retryable := false })
  tryGetAck := fun id =>
    if id = 1 then (-1, false, { success := true, error_message := none, is_retryable := false })
    else if id = 2 then (-2, false, { success := false, error_message := some "boom", is_retryable := true })
    else (7, true, { success := true, error_message := none, is_retryable := false })
  createStream := fun _ => (some 9, { success := true, error_message := none, is_retryable := false })

/-- A failed C result converts to a Go error carrying the C message (or
"unknown error") and the C retryability flag. -/
theorem ffiResult_failure (cres : CResult) (h : cres.success = false) :
    ffiResult cres =
      some { Message := cres.error_message.getD "unknown error",
             IsRetryable := cres.is_retryable } := by
  unfold ffiResult
  rw [h]
  cases hm : cres.error_message <;> simp [hm]

/-- Claim C1: after `Close()` the stream handle's pointer is nil, and on any
stream whose pointer is nil every `IngestRecord` call returns a nil ack
handle and a non-retryable "Stream has been closed" error, and every `Flush`
call returns the same non-retryable error, in both cases with an empty FFI
trace (no FFI call is made), whatever the native environment and payload. -/
theorem c1_closed_stream_local_errors :
    (∀ (env : FFIEnv) (st : ZerobusStream),
        ((ZerobusStream.Close env st).2.1).ptr = none) ∧
    (∀ (env : FFIEnv) (payload : Payload),
        ZerobusStream.IngestRecord env { ptr := none } payload =
          (none, some { Message := "Stream has been closed", IsRetryable := false },
           { ptr := none }, [])) ∧
    (∀ env : FFIEnv,
        ZerobusStream.Flush env { ptr := none } =
          (some { Message := "Stream has been closed", IsRetryable := false },
           [])) := by
  refine ⟨fun env st => ?_, fun env payload => rfl, fun env => rfl⟩
  cases st with
  | mk ptr => cases ptr <;> rfl

/-- Claim C2: the first `Close()` on an open stream invokes the native close
and then frees the native stream (tearing down the stream and releasing its
resources) and nils the pointer; `Close()` on an already-closed stream is a
no-op returning nil with no FFI call; and a second `Close()` after any first
`Close()` is a no-op returning nil. -/
theorem c2_close_idempotent :
    (∀ (env : FFIEnv) (p : Nat),
        ZerobusStream.Close env { ptr := some p } =
          ((streamClose env p).1, { ptr := none },
           (streamClose env p).2 ++ [.callStreamFree p])) ∧
    (∀ (env : FFIEnv) (p : Nat), (streamClose env p).2 = [.callClose p]) ∧
    (∀ env : FFIEnv,
        ZerobusStream.Close env { ptr := none } = (none, { ptr := none }, [])) ∧
    (∀ (env env2 : FFIEnv) (st : ZerobusStream),
        ZerobusStream.Close env2 ((ZerobusStream.Close env st).2.1) =
          (none, (ZerobusStream.Close env st).2.1, [])) := by
  refine ⟨fun env p => rfl, fun env p => ?_, fun env => rfl, fun env env2 st => ?_⟩
  · cases h : (env.close p).1 <;> simp [streamClose, h]
  · cases st with
    | mk ptr => cases ptr <;> rfl

/-- Claim C3: on a fresh `RecordAck` (as returned by `IngestRecord`) the
first `Await()` executes the native wait exactly once and caches its result
in the handle; on any `RecordAck`, a second `Await()` returns exactly the
same `(offset, error)` pair as the first, leaves the handle unchanged, and
makes no FFI call. -/
theorem c3_await_idempotent :
    (∀ (env : FFIEnv) (id : Nat) (off : Int) (e : GoError),
        (RecordAck.Await env
            { ackID := id, onceDone := false, offset := off, err := e }).2.2.2 =
          [.callAwaitAck id] ∧
        (RecordAck.Await env
            { ackID := id, onceDone := false, offset := off, err := e }).2.2.1 =
          { ackID := id, onceDone := true,
            offset := (RecordAck.Await env
              { ackID := id, onceDone := false, offset := off, err := e }).1,
            err := (RecordAck.Await env
              { ackID := id, onceDone := false, offset := off, err := e }).2.1 }) ∧
    (∀ (env env2 : FFIEnv) (a : RecordAck),
        (RecordAck.Await env2 ((RecordAck.Await env a).2.2.1)).1 =
          (RecordAck.Await env a).1 ∧
        (RecordAck.Await env2 ((RecordAck.Await env a).2.2.1)).2.1 =
          (RecordAck.Await env a).2.1 ∧
        (RecordAck.Await env2 ((RecordAck.Await env a).2.2.1)).2.2.1 =
          (RecordAck.Await env a).2.2.1 ∧
        (RecordAck.Await env2 ((RecordAck.Await env a).2.2.1)).2.2.2 = []) := by
  refine ⟨fun env id off e => ⟨?_, rfl⟩, fun env env2 a => ?_⟩
  · show (streamAwaitAck env id).2.2 = [.callAwaitAck id]
    rcases lt_or_le (env.awaitAck id).1 0 with h | h
    · simp [streamAwaitAck, h]
    · simp [streamAwaitAck, not_lt.mpr h]
  · cases a with
    | mk id d off e => cases d <;> exact ⟨rfl, rfl, rfl, rfl⟩

/-- Claim C8: `Retryable()` returns exactly the error's retryability flag;
`Error()` formats "ZerobusError (retryable): msg" when the flag is set and
"ZerobusError: msg" otherwise; and `ffiResult` maps a successful C result to
nil, preserves the C result's `is_retryable` flag on failure, and uses the
message "unknown error" when the C result supplies none. -/
theorem c8_error_values :
    (∀ e : ZerobusError, e.Retryable = e.IsRetryable) ∧
    (∀ m : String,
        ZerobusError.Error { Message := m, IsRetryable := true } =
          "ZerobusError (retryable): " ++ m) ∧
    (∀ m : String,
        ZerobusError.Error { Message := m, IsRetryable := false } =
          "ZerobusError: " ++ m) ∧
    (∀ (m : Option String) (r : Bool),
        ffiResult { success := true, error_message := m, is_retryable := r } =
          none) ∧
    (∀ (m : String) (r : Bool),
        ffiResult { success := false, error_message := some m, is_retryable := r } =
          some { Message := m, IsRetryable := r }) ∧
    (∀ r : Bool,
        ffiResult { success := false, error_message := none, is_retryable := r } =
          some { Message := "unknown error", IsRetryable := r }) :=
  ⟨fun _ => rfl, fun _ => rfl, fun _ => rfl, fun _ _ => rfl, fun _ _ => rfl,
   fun _ => rfl⟩

/-- The successful outcome of an `Await` result tuple: a non-negative offset
with a nil error. -/
def AwaitSuccess (r : Int × GoError × RecordAck × List FFICall) : Prop :=
  0 ≤ r.1 ∧ r.2.1 = none

/-- The failed outcome of an `Await` result tuple: offset -1 with a non-nil
error carrying the given retryability flag. -/
def AwaitFailure (retry : Bool) (r : Int × GoError × RecordAck × List FFICall) :
    Prop :=
  r.1 = -1 ∧ ∃ e, r.2.1 = some e ∧ e.IsRetryable = retry

/-- Claim C4: awaiting the ack handle of a submitted record yields a
non-negative offset with a nil error when the native side acknowledges
success, and offset -1 with a non-nil error carrying the native result's
retryability flag when it reports failure; exactly one of the two outcomes
occurs.  The hypothesis is the channel contract of the spec (an
acknowledgment is either a success with a non-negative logical offset or a
failure result): the native core is outside `src/`. -/
theorem c4_await_roundtrip (env : FFIEnv) (id : Nat)
    (hwf : ((env.awaitAck id).2.success = true ∧ 0 ≤ (env.awaitAck id).1) ∨
           ((env.awaitAck id).2.success = false ∧ (env.awaitAck id).1 < 0)) :
    (AwaitSuccess (RecordAck.Await env
        { ackID := id, onceDone := false, offset := 0, err := none }) ∧
      ¬ AwaitFailure (env.awaitAck id).2.is_retryable
        (RecordAck.Await env
          { ackID := id, onceDone := false, offset := 0, err := none })) ∨
    (AwaitFailure (env.awaitAck id).2.is_retryable
        (RecordAck.Await env
          { ackID := id, onceDone := false, offset := 0, err := none }) ∧
      ¬ AwaitSuccess (RecordAck.Await env
        { ackID := id, onceDone := false, offset := 0, err := none })) := by
  rcases hwf with ⟨hs, hge⟩ | ⟨hs, hlt⟩
  · have hr : streamAwaitAck env id =
        ((env.awaitAck id).1, none, [.callAwaitAck id]) := by
      simp [streamAwaitAck, not_lt.mpr hge]
    left
    constructor
    · exact ⟨by show 0 ≤ (streamAwaitAck env id).1; rw [hr]; exact hge,
             by show (streamAwaitAck env id).2.1 = none; rw [hr]⟩
    · rintro ⟨-, e, he, -⟩
      have hn : (streamAwaitAck env id).2.1 = none := by rw [hr]
      rw [show (RecordAck.Await env
          { ackID := id, onceDone := false, offset := 0, err := none }).2.1 =
          (streamAwaitAck env id).2.1 from rfl, hn] at he
      exact Option.noConfusion he
  · have hr : streamAwaitAck env id =
        (-1, ffiResult (env.awaitAck id).2, [.callAwaitAck id]) := by
      simp [streamAwaitAck, hlt]
    have hfe := ffiResult_failure (env.awaitAck id).2 hs
    right
    constructor
    · refine ⟨by show (streamAwaitAck env id).1 = -1; rw [hr], ?_⟩
      refine ⟨{ Message := (env.awaitAck id).2.error_message.getD "unknown error",
                IsRetryable := (env.awaitAck id).2.is_retryable }, ?_, rfl⟩
      show (streamAwaitAck env id).2.1 = _
      rw [hr, hfe]
    · rintro ⟨hge, -⟩
      have h1 : (streamAwaitAck env id).1 = -1 := by rw [hr]
      rw [show (RecordAck.Await env
          { ackID := id, onceDone := false, offset := 0, err := none }).1 =
          (streamAwaitAck env id).1 from rfl, h1] at hge
      omega

/-- Witness for claim C4: the test environment acknowledges ack id 5 at
offset 7 with a successful result, so awaiting the fresh handle takes the
success outcome. -/
theorem c4_await_roundtrip_witness :
    (((testEnv.awaitAck 5).2.success = true ∧ 0 ≤ (testEnv.awaitAck 5).1) ∨
     ((testEnv.awaitAck 5).2.success = false ∧ (testEnv.awaitAck 5).1 < 0)) ∧
    ((AwaitSuccess (RecordAck.Await testEnv
        { ackID := 5, onceDone := false, offset := 0, err := none }) ∧
      ¬ AwaitFailure (testEnv.awaitAck 5).2.is_retryable
        (RecordAck.Await testEnv
          { ackID := 5, onceDone := false, offset := 0, err := none })) ∨
     (AwaitFailure (testEnv.awaitAck 5).2.is_retryable
        (RecordAck.Await testEnv
          { ackID := 5, onceDone := false, offset := 0, err := none }) ∧
      ¬ AwaitSuccess (RecordAck.Await testEnv
        { ackID := 5, onceDone := false, offset := 0, err := none }))) :=
  ⟨Or.inl ⟨rfl, by decide⟩,
   c4_await_roundtrip testEnv 5 (Or.inl ⟨rfl, by decide⟩)⟩

/-- Claim C5: while the native side reports the record still pending,
`TryGet()` returns `(0, nil, false)`; once it reports the record resolved,
`TryGet()` returns the non-negative offset with a nil error and ready=true;
once it reports the record failed, `TryGet()` returns a zero offset, a
non-nil error and ready=true.  The pending/failed/resolved encodings (-1,
-2, non-negative) are the FFI contract documented in `sdk/ffi.go`. -/
theorem c5_tryget_states (env : FFIEnv) (a : RecordAck) :
    ((env.tryGetAck a.ackID).1 = -1 →
      RecordAck.TryGet env a = (0, none, false, [.callTryGetAck a.ackID])) ∧
    (0 ≤ (env.tryGetAck a.ackID).1 →
      RecordAck.TryGet env a =
        ((env.tryGetAck a.ackID).1, none, true, [.callTryGetAck a.ackID])) ∧
    ((env.tryGetAck a.ackID).1 = -2 →
      (env.tryGetAck a.ackID).2.2.success = false →
      (RecordAck.TryGet env a).1 = 0 ∧
      (∃ e, (RecordAck.TryGet env a).2.1 = some e) ∧
      (RecordAck.TryGet env a).2.2.1 = true) := by
  refine ⟨fun h => ?_, fun h => ?_, fun h hs => ?_⟩
  · simp [RecordAck.TryGet, streamTryGetAck, h]
  · have h1 : (env.tryGetAck a.ackID).1 ≠ -1 := by omega
    have h2 : (env.tryGetAck a.ackID).1 ≠ -2 := by omega
    simp [RecordAck.TryGet, streamTryGetAck, h1, h2]
  · rw [show RecordAck.TryGet env a = streamTryGetAck env a.ackID from rfl]
    have hr : streamTryGetAck env a.ackID =
        (0, ffiResult (env.tryGetAck a.ackID).2.2, true,
         [.callTryGetAck a.ackID]) := by
      simp [streamTryGetAck, h]
    rw [hr, ffiResult_failure _ hs]
    exact ⟨rfl, ⟨_, rfl⟩, rfl⟩

/-- Witness for claim C5: in the test environment ack id 1 is pending, ack
id 3 is resolved at offset 7, and ack id 2 has failed. -/
theorem c5_tryget_states_witness :
    ((testEnv.tryGetAck 1).1 = -1 ∧
      RecordAck.TryGet testEnv { ackID := 1, onceDone := false, offset := 0, err := none } =
        (0, none, false, [.callTryGetAck 1])) ∧
    (0 ≤ (testEnv.tryGetAck 3).1 ∧
      RecordAck.TryGet testEnv { ackID := 3, onceDone := false, offset := 0, err := none } =
        ((testEnv.tryGetAck 3).1, none, true, [.callTryGetAck 3])) ∧
    ((testEnv.tryGetAck 2).1 = -2 ∧
      (testEnv.tryGetAck 2).2.2.success = false ∧
      (RecordAck.TryGet testEnv { ackID := 2, onceDone := false, offset := 0, err := none }).1 = 0 ∧
      (∃ e, (RecordAck.TryGet testEnv
        { ackID := 2, onceDone := false, offset := 0, err := none }).2.1 = some e) ∧
      (RecordAck.TryGet testEnv
        { ackID := 2, onceDone := false, offset := 0, err := none }).2.2.1 = true) := by
  refine ⟨⟨by decide, ?_⟩, ⟨by decide, ?_⟩, by decide, by decide, ?_, ?_, ?_⟩
  · exact (c5_tryget_states testEnv
      { ackID := 1, onceDone := false, offset := 0, err := none }).1 (by decide)
  · exact (c5_tryget_states testEnv
      { ackID := 3, onceDone := false, offset := 0, err := none }).2.1 (by decide)
  · exact ((c5_tryget_states testEnv
      { ackID := 2, onceDone := false, offset := 0, err := none }).2.2
        (by decide) (by decide)).1
  · exact ((c5_tryget_states testEnv
      { ackID := 2, onceDone := false, offset := 0, err := none }).2.2
        (by decide) (by decide)).2.1
  · exact ((c5_tryget_states testEnv
      { ackID := 2, onceDone := false, offset := 0, err := none }).2.2
        (by decide) (by decide)).2.2

/-- Claim C6: an empty `[]byte` payload is rejected by the Go layer itself
with a non-retryable "empty data" error and an empty FFI trace, and an empty
JSON string on a JSON-mode stream is rejected by the spec-modelled native
core with a non-retryable "empty payload" error, nothing being handed to the
channel. -/
theorem c6_empty_payload_rejected :
    (∀ (env : FFIEnv) (p : Nat),
        ZerobusStream.IngestRecord env { ptr := some p } (.bytes []) =
          (none, some { Message := "empty data", IsRetryable := false },
           { ptr := some p }, [])) ∧
    (∀ (sendP : List Nat → Nat × CResult × List ChannelSend)
        (sendJ : String → Nat × CResult × List ChannelSend)
        (base : FFIEnv) (p : Nat),
        ZerobusStream.IngestRecord (coreEnv .json sendP sendJ base)
            { ptr := some p } (.str "") =
          (none, some { Message := "empty payload", IsRetryable := false },
           { ptr := some p }, [.callIngestJSON p ""]) ∧
        (coreIngestJSON .json sendJ "").2.2 = []) := by
  exact ⟨fun env p => rfl, fun sendP sendJ base p => ⟨rfl, rfl⟩⟩

/-- Claim C7: a payload whose dynamic type is neither `[]byte` nor `string`
is always rejected locally (nil ack, non-retryable error, no FFI call), with
the "Invalid payload type" message on an open stream; and a record whose
kind does not match the stream's encoding mode fixed at creation is rejected
by the spec-modelled native core with a non-retryable error, nothing being
handed to the channel. -/
theorem c7_wrong_kind_rejected :
    (∀ (env : FFIEnv) (st : ZerobusStream),
        (ZerobusStream.IngestRecord env st .other).1 = none ∧
        (∃ e, (ZerobusStream.IngestRecord env st .other).2.1 = some e ∧
          e.IsRetryable = false) ∧
        (ZerobusStream.IngestRecord env st .other).2.2.2 = []) ∧
    (∀ (env : FFIEnv) (p : Nat),
        ZerobusStream.IngestRecord env { ptr := some p } .other =
          (none,
           some { Message := "Invalid payload type: must be []byte or string",
                  IsRetryable := false },
           { ptr := some p }, [])) ∧
    (∀ (sendP : List Nat → Nat × CResult × List ChannelSend)
        (sendJ : String → Nat × CResult × List ChannelSend)
        (base : FFIEnv) (p : Nat) (s : String),
        ZerobusStream.IngestRecord (coreEnv .binary sendP sendJ base)
            { ptr := some p } (.str s) =
          (none, some { Message := "wrong encoding kind", IsRetryable := false },
           { ptr := some p }, [.callIngestJSON p s]) ∧
        (coreIngestJSON .binary sendJ s).2.2 = []) ∧
    (∀ (sendP : List Nat → Nat × CResult × List ChannelSend)
        (sendJ : String → Nat × CResult × List ChannelSend)
        (base : FFIEnv) (p d : Nat) (ds : List Nat),
        ZerobusStream.IngestRecord (coreEnv .json sendP sendJ base)
            { ptr := some p } (.bytes (d :: ds)) =
          (none, some { Message := "wrong encoding kind", IsRetryable := false },
           { ptr := some p }, [.callIngestProto p (d :: ds)]) ∧
        (coreIngestProto .json sendP (d :: ds)).2.2 = []) := by
  refine ⟨fun env st => ?_, fun env p => rfl,
    fun sendP sendJ base p s => ⟨rfl, rfl⟩,
    fun sendP sendJ base p d ds => ⟨rfl, rfl⟩⟩
  cases st with
  | mk ptr => cases ptr <;> exact ⟨rfl, ⟨_, rfl, rfl⟩, rfl⟩

/-- Claim C9: after `Free()` the SDK pointer is nil; the first `Free()` on a
live SDK performs exactly the native free; a second `Free()` is a no-op with
no FFI call; and `CreateStream` on a freed SDK returns a non-retryable "SDK
has been freed" error with no FFI call, so no operation dereferences the
freed native pointer. -/
theorem c9_sdk_freed_safe :
    (∀ s : ZerobusSdk, ((ZerobusSdk.Free s).1).ptr = none) ∧
    (∀ p : Nat,
        ZerobusSdk.Free { ptr := some p } = ({ ptr := none }, [.callSdkFree p])) ∧
    (∀ s : ZerobusSdk,
        ZerobusSdk.Free ((ZerobusSdk.Free s).1) = ((ZerobusSdk.Free s).1, [])) ∧
    (∀ (env : FFIEnv) (tp : TableProperties) (cid cs : String)
        (opts : Option StreamConfigurationOptions),
        ZerobusSdk.CreateStream env { ptr := none } tp cid cs opts =
          (none, some { Message := "SDK has been freed", IsRetryable := false },
           [])) := by
  refine ⟨fun s => ?_, fun p => rfl, fun s => ?_, fun env tp cid cs opts => rfl⟩
  · cases s with
    | mk ptr => cases ptr <;> rfl
  · cases s with
    | mk ptr => cases ptr <;> rfl

/-- Claim C10: when the native close reports a failure, the first `Close()`
still frees the native stream and nils the handle, surfacing the close error
(with the native retryability flag) exactly this once; a second `Close()` on
the same handle returns nil with no FFI call, so the close can never be
retried on that handle. -/
theorem c10_close_surfaces_error_once (env : FFIEnv) (p : Nat)
    (hfail : (env.close p).1 = false)
    (hres : (env.close p).2.success = false) :
    ((ZerobusStream.Close env { ptr := some p }).2.1 = { ptr := none }) ∧
    ((ZerobusStream.Close env { ptr := some p }).2.2 =
      [.callClose p, .callStreamFree p]) ∧
    (∃ e, (ZerobusStream.Close env { ptr := some p }).1 = some e ∧
      e.IsRetryable = (env.close p).2.is_retryable) ∧
    (ZerobusStream.Close env ((ZerobusStream.Close env { ptr := some p }).2.1) =
      (none, { ptr := none }, [])) := by
  have hc : streamClose env p = (ffiResult (env.close p).2, [.callClose p]) := by
    simp [streamClose, hfail]
  refine ⟨rfl, ?_, ?_, rfl⟩
  · show (streamClose env p).2 ++ [.callStreamFree p] = _
    rw [hc]
    rfl
  · show ∃ e, (streamClose env p).1 = some e ∧ _
    rw [hc, ffiResult_failure _ hres]
    exact ⟨_, rfl, rfl⟩

/-- Witness for claim C10: the test environment's native close fails, yet
the handle still ends up closed, freed, with the error surfaced once. -/
theorem c10_close_surfaces_error_once_witness :
    ((testEnv.close 4).1 = false ∧ (testEnv.close 4).2.success = false) ∧
    (((ZerobusStream.Close testEnv { ptr := some 4 }).2.1 = { ptr := none }) ∧
     ((ZerobusStream.Close testEnv { ptr := some 4 }).2.2 =
       [.callClose 4, .callStreamFree 4]) ∧
     (∃ e, (ZerobusStream.Close testEnv { ptr := some 4 }).1 = some e ∧
        e.IsRetryable = (testEnv.close 4).2.is_retryable) ∧
     (ZerobusStream.Close testEnv
        ((ZerobusStream.Close testEnv { ptr := some 4 }).2.1) =
      (none, { ptr := none }, []))) :=
  ⟨⟨rfl, rfl⟩, c10_close_surfaces_error_once testEnv 4 rfl rfl⟩

end Zerobus
